import Mathlib

/-!
Verification of the MCAP iterable playback source facade
(`packages/studio-base/src/players/IterablePlayer/Mcap/McapIterableSource.ts`)
against its natural-language specification.

The facade is embedded shallowly: the effectful operations the facade
performs (the preliminary slice read, `McapIndexedReader.Initialize`,
`RemoteFileReadable.open`, `fetch`, and the chosen delegate's own
`initialize`) are represented by an explicit environment describing their
outcomes, and `initialize` becomes a pure function from environment and
facade state to a new state, a log, and an `Except` result.
-/

/-- Outcome of the preliminary one-byte slice read on a local file
(`source.file.slice(0, 1).arrayBuffer()`).  The read either succeeds or
throws; a thrown error is either a permission error or a generic I/O
error — the two are distinct values, so the distinction survives to the
caller. -/
inductive ReadErr where
  | permissionDenied
  | ioError
deriving DecidableEq, Repr

/-- Outcome of `McapIndexedReader.Initialize({readable, decompressHandlers})`:
either it throws (carrying an error message), or it completes structurally
with a reader exposing `chunkIndexes.length` and `channelsById.size`. -/
inductive ProbeResult where
  | throwErr (msg : String)
  | ok (chunkIndexesLen : Nat) (channelsByIdSize : Nat)
deriving DecidableEq, Repr

/-- The indexed reader as the facade observes it: `chunkIndexes.length`
and `channelsById.size` are the only attributes the facade inspects. -/
structure IndexedReader where
  chunkIndexesLen : Nat
  channelsByIdSize : Nat
deriving DecidableEq, Repr

/-- `tryCreateIndexedReader`: runs the indexed-reader probe; on a thrown
error, logs it (`log.error(err)`) and returns `undefined`; on structural
completion with zero chunk indexes or zero channels, returns `undefined`;
otherwise returns the reader.  The second component is the log output. -/
def tryCreateIndexedReader : ProbeResult → Option IndexedReader × List String
  | .throwErr msg => (none, [msg])
  | .ok c ch => (if c = 0 || ch = 0 then none else some ⟨c, ch⟩, [])

/-- `McapSource`: tagged union of a local file (we keep its `size`) and a
remote URL. -/
inductive McapSource where
  | file (fileSize : Nat)
  | url (u : String)
deriving DecidableEq, Repr

/-- JavaScript `parseInt(s)` with default radix 10: skip leading
whitespace, read an optional sign, then leading decimal digits; `none`
represents `NaN` (no digits found). -/
def jsParseInt (s : String) : Option Int :=
  let cs := s.data.dropWhile (fun c => c = ' ' || c = '\t' || c = '\n' || c = '\r')
  let signAndRest : Int × List Char :=
    match cs with
    | '-' :: rest => (-1, rest)
    | '+' :: rest => (1, rest)
    | _ => (1, cs)
  let ds := signAndRest.2.takeWhile Char.isDigit
  if ds.isEmpty then none
  else some (signAndRest.1 * Int.ofNat (ds.foldl (fun a c => a * 10 + (c.toNat - '0'.toNat)) 0))

/-- The delegate chosen by the facade: either the indexed iterable source
wrapping a probe-produced reader, or the streaming iterable source, whose
constructor receives a declared `size` (`none` models `NaN`, which JS
`parseInt` yields on a non-numeric Content-Length header). -/
inductive SourceImpl where
  | indexed (reader : IndexedReader)
  | streaming (size : Option Int)
deriving DecidableEq, Repr

/-- The (misspelled in the source) `Initalization` result of a delegate's
`initialize`: discovered channels, schemas, and the covered time range.
The facade never inspects it, only passes it through. -/
structure Initalization where
  channelIds : List Nat
  schemaIds : List Nat
  startNs : Nat
  endNs : Nat
deriving DecidableEq, Repr

/-- Errors `initialize()` can propagate to its caller.  Each constructor
corresponds to one throw site reachable from `initialize`; there is no
constructor for an indexed-reader construction error because that throw is
caught inside `tryCreateIndexedReader` and never propagated. -/
inductive InitErr where
  | readErr (e : ReadErr)
  | openErr (msg : String)
  | fetchErr (msg : String)
  | unableToStream (u : String)
  | missingContentLength (u : String)
  | delegateInitErr (msg : String)
deriving DecidableEq, Repr

/-- Environment for a local-file `initialize` run: outcome of the
preliminary slice read, and outcome of the indexed-reader probe. -/
structure FileEnv where
  sliceRead : Except ReadErr Unit
  probe : ProbeResult

/-- Environment for a remote-URL `initialize` run: outcome of
`RemoteFileReadable.open`, of the indexed-reader probe, and of the
fallback `fetch` (whether it throws, whether `response.body` is present,
and the `Content-Length` header value, `none` when absent). -/
structure UrlEnv where
  openResult : Except String Unit
  probe : ProbeResult
  fetchResult : Except String Unit
  bodyPresent : Bool
  contentLength : Option String

/-- Full environment: both per-kind environments plus the behavior of the
chosen delegate's own `initialize`. -/
structure Env where
  fileEnv : FileEnv
  urlEnv : UrlEnv
  delegateInit : SourceImpl → Except String Initalization

/-- Facade state: the immutable source descriptor and the delegate slot
`_sourceImpl`, `none` until `initialize` assigns it. -/
structure McapIterableSource where
  source : McapSource
  sourceImpl : Option SourceImpl := none

/-- Result of one `initialize()` run: the facade state afterwards, the
accumulated log output, and the value returned or error thrown. -/
structure InitOutcome where
  state : McapIterableSource
  logs : List String
  result : Except InitErr Initalization

/-- `return await this._sourceImpl.initialize()`: the delegate's result is
returned as-is on success; a delegate throw propagates (wrapped here as
`delegateInitErr` to keep the error types apart). -/
def runDelegateInit (delegateInit : SourceImpl → Except String Initalization)
    (impl : SourceImpl) : Except InitErr Initalization :=
  match delegateInit impl with
  | .error m => .error (.delegateInitErr m)
  | .ok i => .ok i

/-- `McapIterableSource.initialize()`: branches on the source kind.
Local file: preliminary slice read (throws on permission error), then the
indexed probe; on a usable reader the indexed delegate is assigned, else
the streaming delegate over the file's own stream and size.  Remote URL:
`open()` (throws if unreachable), then the probe; on fallback, `fetch`
(throws on network error), then `response.body` must be present and the
`Content-Length` header must exist, and the streaming delegate receives
`parseInt` of the header.  Finally the chosen delegate's `initialize` is
awaited.  A throw leaves the state as it was at the throw point. -/
def facadeInitialize (env : Env) (st : McapIterableSource) : InitOutcome :=
  match st.source with
  | .file fileSize =>
    match env.fileEnv.sliceRead with
    | .error e => ⟨st, [], .error (.readErr e)⟩
    | .ok _ =>
      let pr := tryCreateIndexedReader env.fileEnv.probe
      let impl : SourceImpl :=
        match pr.1 with
        | some r => .indexed r
        | none => .streaming (some (Int.ofNat fileSize))
      let st2 : McapIterableSource := { st with sourceImpl := some impl }
      ⟨st2, pr.2, runDelegateInit env.delegateInit impl⟩
  | .url u =>
    match env.urlEnv.openResult with
    | .error m => ⟨st, [], .error (.openErr m)⟩
    | .ok _ =>
      let pr := tryCreateIndexedReader env.urlEnv.probe
      match pr.1 with
      | some r =>
        let impl : SourceImpl := .indexed r
        let st2 : McapIterableSource := { st with sourceImpl := some impl }
        ⟨st2, pr.2, runDelegateInit env.delegateInit impl⟩
      | none =>
        match env.urlEnv.fetchResult with
        | .error m => ⟨st, pr.2, .error (.fetchErr m)⟩
        | .ok _ =>
          if env.urlEnv.bodyPresent then
            match env.urlEnv.contentLength with
            | none => ⟨st, pr.2, .error (.missingContentLength u)⟩
            | some s =>
              let impl : SourceImpl := .streaming (jsParseInt s)
              let st2 : McapIterableSource := { st with sourceImpl := some impl }
              ⟨st2, pr.2, runDelegateInit env.delegateInit impl⟩
          else ⟨st, pr.2, .error (.unableToStream u)⟩

/-- A message record: channel id, log time, publish time, payload bytes. -/
structure McapMessage where
  channelId : Nat
  logTime : Nat
  publishTime : Nat
  data : List Nat
deriving DecidableEq, Repr

/-- Arguments to `messageIterator`: optional topic allow-list and optional
inclusive time bounds. -/
structure MessageIteratorArgs where
  topics : Option (List String)
  startTime : Option Nat
  endTime : Option Nat
deriving DecidableEq, Repr

/-- Arguments to `getBackfillMessages`: a topic set and a time point. -/
structure GetBackfillMessagesArgs where
  topics : List String
  time : Nat
deriving DecidableEq, Repr

/-- `McapIterableSource.messageIterator(opt)`: throws
`"Invariant: uninitialized"` when `_sourceImpl` is unset, otherwise
returns exactly `this._sourceImpl.messageIterator(opt)`.  The delegate's
behavior is the parameter `delegateIter`. -/
def facadeMessageIterator (delegateIter : SourceImpl → MessageIteratorArgs → List McapMessage)
    (st : McapIterableSource) (opt : MessageIteratorArgs) : Except String (List McapMessage) :=
  match st.sourceImpl with
  | none => .error "Invariant: uninitialized"
  | some impl => .ok (delegateIter impl opt)

/-- `McapIterableSource.getBackfillMessages(args)`: throws
`"Invariant: uninitialized"` when `_sourceImpl` is unset, otherwise
returns exactly `this._sourceImpl.getBackfillMessages(args)`. -/
def facadeGetBackfillMessages
    (delegateBackfill : SourceImpl → GetBackfillMessagesArgs → List McapMessage)
    (st : McapIterableSource) (args : GetBackfillMessagesArgs) :
    Except String (List McapMessage) :=
  match st.sourceImpl with
  | none => .error "Invariant: uninitialized"
  | some impl => .ok (delegateBackfill impl args)

/-- A post-initialization operation on the facade. -/
inductive FacadeOp where
  | msgIter (opt : MessageIteratorArgs)
  | backfill (args : GetBackfillMessagesArgs)

/-- Runs a sequence of iterator/backfill calls against the facade,
threading the state.  Neither method body assigns `_sourceImpl`, so each
step passes the state through unchanged — exactly as in the source, where
only `initialize` writes that field. -/
def runOps (fI : SourceImpl → MessageIteratorArgs → List McapMessage)
    (fB : SourceImpl → GetBackfillMessagesArgs → List McapMessage)
    (st : McapIterableSource) :
    List FacadeOp → McapIterableSource × List (Except String (List McapMessage))
  | [] => (st, [])
  | op :: rest =>
    let r : Except String (List McapMessage) :=
      match op with
      | .msgIter a => facadeMessageIterator fI st a
      | .backfill a => facadeGetBackfillMessages fB st a
    let rec2 := runOps fI fB st rest
    (rec2.1, r :: rec2.2)

/-- A channel of the indexed reader: numeric id and topic name. -/
structure McapChannel where
  id : Nat
  topic : String
deriving DecidableEq, Repr

/-- A chunk of an indexed file: the time range its index entry covers and
the message records it contains. -/
structure McapChunk where
  startTime : Nat
  endTime : Nat
  messages : List McapMessage
deriving DecidableEq, Repr

/-- Modelled from the spec: `McapIndexedIterableSource` (the indexed
delegate) is not under `src/`; per §4.2 the indexed reader exposes the
set of channels by id and the chunk index list ordered by chunk start
time.  This is that shape. -/
structure IndexedMcapFile where
  channels : List McapChannel
  chunks : List McapChunk
deriving DecidableEq, Repr

/-- Topic of a channel id within an indexed file, when the id is known. -/
def topicOfChannel (f : IndexedMcapFile) (cid : Nat) : Option String :=
  (f.channels.find? (fun c => c.id = cid)).map (fun c => c.topic)

/-- Log-time order on message records. -/
def msgLE (a b : McapMessage) : Prop := a.logTime ≤ b.logTime

instance : DecidableRel msgLE := fun a b => Nat.decLe a.logTime b.logTime

instance : IsTotal McapMessage msgLE := ⟨fun a b => Nat.le_total a.logTime b.logTime⟩

instance : IsTrans McapMessage msgLE := ⟨fun _ _ _ h1 h2 => Nat.le_trans h1 h2⟩

/-- Modelled from the spec: whether a chunk's time range intersects the
query range (§4.2: "the minimal ordered set of chunks whose time range
intersects the query"); an absent bound does not constrain. -/
def chunkIntersects (args : MessageIteratorArgs) (ck : McapChunk) : Bool :=
  (match args.startTime with | none => true | some s => s ≤ ck.endTime) &&
  (match args.endTime with | none => true | some e => ck.startTime ≤ e)

/-- Modelled from the spec: whether one message record is yielded
(§4.2/§6: "filtering out channels not requested", inclusive time
bounds).  A record passes when its log time lies in the inclusive range
and, when a topic allow-list is provided, its channel's topic is in it. -/
def messagePasses (f : IndexedMcapFile) (args : MessageIteratorArgs) (m : McapMessage) : Bool :=
  (match args.startTime with | none => true | some s => s ≤ m.logTime) &&
  (match args.endTime with | none => true | some e => m.logTime ≤ e) &&
  (match args.topics with
   | none => true
   | some ts =>
     match topicOfChannel f m.channelId with
     | none => false
     | some t => ts.contains t)

/-- Modelled from the spec: `messageIterator` of the indexed delegate
(`McapIndexedIterableSource.messageIterator`, not under `src/`).  Per
§4.2 it determines the chunks whose time range intersects the query,
reads each lazily, filters out records outside the range or not in the
topic allow-list, and "yields contained message records in time order";
the time-order merge across chunks is rendered as a sort by log time of
the filtered records of the intersecting chunks. -/
def indexedMessageIterator (f : IndexedMcapFile) (args : MessageIteratorArgs) :
    List McapMessage :=
  let candidates := (f.chunks.filter (chunkIntersects args)).map McapChunk.messages
  List.insertionSort msgLE (candidates.flatten.filter (messagePasses f args))

/-- C2: on a facade instance whose delegate has not been set by
`initialize()`, any `messageIterator` or `getBackfillMessages` call
throws the invariant-violation error immediately, whatever the delegate
behaviors and arguments are, and in particular never returns an empty
iterator or an empty message list. -/
theorem C2_uninitialized_calls_throw
    (fI : SourceImpl → MessageIteratorArgs → List McapMessage)
    (fB : SourceImpl → GetBackfillMessagesArgs → List McapMessage)
    (st : McapIterableSource) (h : st.sourceImpl = none)
    (opt : MessageIteratorArgs) (args : GetBackfillMessagesArgs) :
    facadeMessageIterator fI st opt = .error "Invariant: uninitialized"
  ∧ facadeGetBackfillMessages fB st args = .error "Invariant: uninitialized"
  ∧ (∀ l : List McapMessage, facadeMessageIterator fI st opt ≠ .ok l)
  ∧ (∀ l : List McapMessage, facadeGetBackfillMessages fB st args ≠ .ok l) := by
  refine ⟨?_, ?_, ?_, ?_⟩ <;>
    simp [facadeMessageIterator, facadeGetBackfillMessages, h]

/-- Witness for C2 at a concrete uninitialized instance. -/
theorem C2_uninitialized_calls_throw_witness :
    facadeMessageIterator (fun _ _ => []) ⟨.file 3, none⟩ ⟨none, none, none⟩
      = .error "Invariant: uninitialized"
  ∧ facadeGetBackfillMessages (fun _ _ => []) ⟨.file 3, none⟩ ⟨["a"], 5⟩
      = .error "Invariant: uninitialized"
  ∧ (∀ l : List McapMessage,
      facadeMessageIterator (fun _ _ => []) ⟨.file 3, none⟩ ⟨none, none, none⟩ ≠ .ok l)
  ∧ (∀ l : List McapMessage,
      facadeGetBackfillMessages (fun _ _ => []) ⟨.file 3, none⟩ ⟨["a"], 5⟩ ≠ .ok l) :=
  C2_uninitialized_calls_throw (fun _ _ => []) (fun _ _ => [])
    ⟨.file 3, none⟩ rfl ⟨none, none, none⟩ ⟨["a"], 5⟩

/-- C4: remote URL source on the streaming fallback path: when the probe
does not produce a usable indexed reader, the fetch succeeds with a body
but the response carries no Content-Length header, `initialize()` throws
the explicit missing-length error, assigns no delegate, and never
completes successfully. -/
theorem C4_missing_content_length_fails (env : Env) (u : String)
    (hopen : env.urlEnv.openResult = .ok ())
    (hprobe : (tryCreateIndexedReader env.urlEnv.probe).1 = none)
    (hfetch : env.urlEnv.fetchResult = .ok ())
    (hbody : env.urlEnv.bodyPresent = true)
    (hlen : env.urlEnv.contentLength = none) :
    (facadeInitialize env ⟨.url u, none⟩).result = .error (.missingContentLength u)
  ∧ (facadeInitialize env ⟨.url u, none⟩).state.sourceImpl = none
  ∧ (∀ i : Initalization, (facadeInitialize env ⟨.url u, none⟩).result ≠ .ok i) := by
  obtain ⟨fe, ⟨uo, up, uf, ub, uc⟩, di⟩ := env
  simp only at hopen hprobe hfetch hbody hlen
  subst hopen hfetch hbody hlen
  refine ⟨?_, ?_, ?_⟩ <;>
    simp [facadeInitialize, hprobe]

/-- Witness for C4 at a concrete environment (valid probe absent, header
absent). -/
theorem C4_missing_content_length_fails_witness :
    (facadeInitialize
        ⟨⟨.ok (), .ok 1 1⟩,
         ⟨.ok (), .throwErr "no footer", .ok (), true, none⟩,
         fun _ => .ok ⟨[], [], 0, 0⟩⟩
        ⟨.url "http://x/a.mcap", none⟩).result
      = .error (.missingContentLength "http://x/a.mcap")
  ∧ (facadeInitialize
        ⟨⟨.ok (), .ok 1 1⟩,
         ⟨.ok (), .throwErr "no footer", .ok (), true, none⟩,
         fun _ => .ok ⟨[], [], 0, 0⟩⟩
        ⟨.url "http://x/a.mcap", none⟩).state.sourceImpl = none
  ∧ (∀ i : Initalization,
      (facadeInitialize
        ⟨⟨.ok (), .ok 1 1⟩,
         ⟨.ok (), .throwErr "no footer", .ok (), true, none⟩,
         fun _ => .ok ⟨[], [], 0, 0⟩⟩
        ⟨.url "http://x/a.mcap", none⟩).result ≠ .ok i) :=
  C4_missing_content_length_fails
    ⟨⟨.ok (), .ok 1 1⟩,
     ⟨.ok (), .throwErr "no footer", .ok (), true, none⟩,
     fun _ => .ok ⟨[], [], 0, 0⟩⟩
    "http://x/a.mcap" rfl rfl rfl rfl rfl

/-- C9: on a local file source, the preliminary slice read runs before
any reader construction; when it fails, `initialize()` returns exactly
that read error with no delegate assigned and no probe log — and the
whole outcome is the same for every environment whose slice read fails
the same way, so no reader construction could have happened.  The
permission-denied and generic-I/O errors remain distinct values as
propagated. -/
theorem C9_preliminary_read_fails_early (env : Env) (n : Nat) (e : ReadErr)
    (h : env.fileEnv.sliceRead = .error e) :
    facadeInitialize env ⟨.file n, none⟩
      = ⟨⟨.file n, none⟩, [], .error (.readErr e)⟩
  ∧ (∀ env2 : Env, env2.fileEnv.sliceRead = .error e →
      facadeInitialize env2 ⟨.file n, none⟩ = facadeInitialize env ⟨.file n, none⟩)
  ∧ InitErr.readErr .permissionDenied ≠ InitErr.readErr .ioError := by
  obtain ⟨⟨sr, fp⟩, ue, di⟩ := env
  simp only at h
  subst h
  refine ⟨rfl, ?_, by simp⟩
  intro env2 h2
  obtain ⟨⟨sr2, fp2⟩, ue2, di2⟩ := env2
  simp only at h2
  subst h2
  rfl

/-- Witness for C9 at a concrete environment failing with a permission
error. -/
theorem C9_preliminary_read_fails_early_witness :
    facadeInitialize
        ⟨⟨.error .permissionDenied, .ok 2 2⟩,
         ⟨.ok (), .ok 2 2, .ok (), true, some "10"⟩,
         fun _ => .ok ⟨[], [], 0, 0⟩⟩
        ⟨.file 9, none⟩
      = ⟨⟨.file 9, none⟩, [], .error (.readErr .permissionDenied)⟩
  ∧ (∀ env2 : Env, env2.fileEnv.sliceRead = .error .permissionDenied →
      facadeInitialize env2 ⟨.file 9, none⟩
        = facadeInitialize
            ⟨⟨.error .permissionDenied, .ok 2 2⟩,
             ⟨.ok (), .ok 2 2, .ok (), true, some "10"⟩,
             fun _ => .ok ⟨[], [], 0, 0⟩⟩
            ⟨.file 9, none⟩)
  ∧ InitErr.readErr .permissionDenied ≠ InitErr.readErr .ioError :=
  C9_preliminary_read_fails_early
    ⟨⟨.error .permissionDenied, .ok 2 2⟩,
     ⟨.ok (), .ok 2 2, .ok (), true, some "10"⟩,
     fun _ => .ok ⟨[], [], 0, 0⟩⟩
    9 .permissionDenied rfl

/-- C10: remote URL source on the streaming fallback path: a present but
non-numeric Content-Length header is accepted without validation —
`initialize()` assigns the streaming delegate with `parseInt` of the
header (`NaN`, modelled as `none`) as its declared size, and returns
whatever the streaming delegate's own initialization returns. -/
theorem C10_nan_content_length_accepted (env : Env) (u s : String)
    (hopen : env.urlEnv.openResult = .ok ())
    (hprobe : (tryCreateIndexedReader env.urlEnv.probe).1 = none)
    (hfetch : env.urlEnv.fetchResult = .ok ())
    (hbody : env.urlEnv.bodyPresent = true)
    (hlen : env.urlEnv.contentLength = some s)
    (hnan : jsParseInt s = none) :
    (facadeInitialize env ⟨.url u, none⟩).state.sourceImpl = some (.streaming none)
  ∧ (facadeInitialize env ⟨.url u, none⟩).result
      = runDelegateInit env.delegateInit (.streaming none) := by
  obtain ⟨fe, ⟨uo, up, uf, ub, uc⟩, di⟩ := env
  simp only at hopen hprobe hfetch hbody hlen
  subst hopen hfetch hbody hlen
  refine ⟨?_, ?_⟩ <;>
    simp [facadeInitialize, hprobe, hnan]

/-- Witness for C10: header value `"abc"` parses to `NaN` and the
streaming delegate succeeds, so `initialize()` succeeds. -/
theorem C10_nan_content_length_accepted_witness :
    (facadeInitialize
        ⟨⟨.ok (), .ok 1 1⟩,
         ⟨.ok (), .ok 0 4, .ok (), true, some "abc"⟩,
         fun _ => .ok ⟨[1], [2], 0, 7⟩⟩
        ⟨.url "http://x/b.mcap", none⟩).state.sourceImpl = some (.streaming none)
  ∧ (facadeInitialize
        ⟨⟨.ok (), .ok 1 1⟩,
         ⟨.ok (), .ok 0 4, .ok (), true, some "abc"⟩,
         fun _ => .ok ⟨[1], [2], 0, 7⟩⟩
        ⟨.url "http://x/b.mcap", none⟩).result
      = runDelegateInit (fun _ => .ok ⟨[1], [2], 0, 7⟩) (.streaming none) :=
  C10_nan_content_length_accepted
    ⟨⟨.ok (), .ok 1 1⟩,
     ⟨.ok (), .ok 0 4, .ok (), true, some "abc"⟩,
     fun _ => .ok ⟨[1], [2], 0, 7⟩⟩
    "http://x/b.mcap" "abc" rfl rfl rfl rfl rfl rfl

/-- The probe outcome relevant to a given source kind. -/
def probeOf (env : Env) : McapSource → ProbeResult
  | .file _ => env.fileEnv.probe
  | .url _ => env.urlEnv.probe

/-- A structurally complete probe with zero chunk indexes or zero
channels yields no usable reader and logs nothing. -/
theorem tryCreateIndexedReader_zero (c ch : Nat) (h : c = 0 ∨ ch = 0) :
    tryCreateIndexedReader (.ok c ch) = (none, []) := by
  rcases h with h | h <;> subst h <;> simp [tryCreateIndexedReader]

/-- C1: when the indexed-reader probe completes structurally but reports
zero chunk indexes or zero channels, `initialize()` never installs the
indexed delegate (for either source kind, whatever else the environment
does), and whenever the fallback path completes, the delegate installed
is the streaming one. -/
theorem C1_zero_index_selects_streaming (env : Env) (c ch : Nat)
    (hzero : c = 0 ∨ ch = 0) :
    (∀ st : McapIterableSource, st.sourceImpl = none →
       probeOf env st.source = .ok c ch →
       ∀ r : IndexedReader,
         (facadeInitialize env st).state.sourceImpl ≠ some (.indexed r))
  ∧ (∀ n : Nat, env.fileEnv.sliceRead = .ok () → env.fileEnv.probe = .ok c ch →
       (facadeInitialize env ⟨.file n, none⟩).state.sourceImpl
         = some (.streaming (some (Int.ofNat n))))
  ∧ (∀ u s, env.urlEnv.openResult = .ok () → env.urlEnv.probe = .ok c ch →
       env.urlEnv.fetchResult = .ok () → env.urlEnv.bodyPresent = true →
       env.urlEnv.contentLength = some s →
       (facadeInitialize env ⟨.url u, none⟩).state.sourceImpl
         = some (.streaming (jsParseInt s))) := by
  obtain ⟨⟨sr, fp⟩, ⟨uo, up, uf, ub, uc⟩, di⟩ := env
  have hz := tryCreateIndexedReader_zero c ch hzero
  refine ⟨?_, ?_, ?_⟩
  · rintro ⟨src, i0⟩ hnone hpr r
    obtain rfl : i0 = none := hnone
    cases src with
    | file n =>
      obtain rfl : fp = .ok c ch := hpr
      cases sr with
      | error e => simp [facadeInitialize]
      | ok v => cases v; simp [facadeInitialize, hz]
    | url u =>
      obtain rfl : up = .ok c ch := hpr
      cases uo with
      | error m => simp [facadeInitialize]
      | ok v =>
        cases v
        cases uf with
        | error m => simp [facadeInitialize, hz]
        | ok v2 =>
          cases v2
          cases ub <;> cases uc <;> simp [facadeInitialize, hz]
  · intro n hsr hp
    obtain rfl : sr = .ok () := hsr
    obtain rfl : fp = .ok c ch := hp
    simp [facadeInitialize, hz]
  · intro u s ho hp hf hb hc
    obtain rfl : uo = .ok () := ho
    obtain rfl : up = .ok c ch := hp
    obtain rfl : uf = .ok () := hf
    obtain rfl : ub = true := hb
    obtain rfl : uc = some s := hc
    simp [facadeInitialize, hz]

/-- Concrete environment for the C1 witness: probe completes with zero
chunk indexes and five channels, both fallback paths viable. -/
def envC1w : Env :=
  ⟨⟨.ok (), .ok 0 5⟩, ⟨.ok (), .ok 0 5, .ok (), true, some "42"⟩,
   fun _ => .ok ⟨[], [], 0, 0⟩⟩

/-- Witness for C1: with zero chunk indexes reported, the file and url
paths both install the streaming delegate, never the indexed one. -/
theorem C1_zero_index_selects_streaming_witness :
    ((0 : Nat) = 0 ∨ (5 : Nat) = 0)
  ∧ (∀ r : IndexedReader,
      (facadeInitialize envC1w ⟨.file 7, none⟩).state.sourceImpl ≠ some (.indexed r))
  ∧ (facadeInitialize envC1w ⟨.file 7, none⟩).state.sourceImpl
      = some (.streaming (some (Int.ofNat 7)))
  ∧ (facadeInitialize envC1w ⟨.url "http://x/c.mcap", none⟩).state.sourceImpl
      = some (.streaming (jsParseInt "42")) :=
  ⟨Or.inl rfl,
   (C1_zero_index_selects_streaming envC1w 0 5 (Or.inl rfl)).1 ⟨.file 7, none⟩ rfl rfl,
   (C1_zero_index_selects_streaming envC1w 0 5 (Or.inl rfl)).2.1 7 rfl rfl,
   (C1_zero_index_selects_streaming envC1w 0 5 (Or.inl rfl)).2.2
     "http://x/c.mcap" "42" rfl rfl rfl rfl rfl⟩

/-- C3: when `McapIndexedReader.Initialize` throws, the error is logged
and the facade falls back to the streaming delegate; the result of
`initialize()` is exactly the streaming delegate's own initialization
result, so the construction error is never propagated to the caller. -/
theorem C3_construction_error_soft_fallback (env : Env) (msg : String) :
    (∀ n : Nat, env.fileEnv.sliceRead = .ok () →
       env.fileEnv.probe = .throwErr msg →
       (facadeInitialize env ⟨.file n, none⟩).logs = [msg]
       ∧ (facadeInitialize env ⟨.file n, none⟩).state.sourceImpl
           = some (.streaming (some (Int.ofNat n)))
       ∧ (facadeInitialize env ⟨.file n, none⟩).result
           = runDelegateInit env.delegateInit (.streaming (some (Int.ofNat n))))
  ∧ (∀ u s, env.urlEnv.openResult = .ok () → env.urlEnv.probe = .throwErr msg →
       env.urlEnv.fetchResult = .ok () → env.urlEnv.bodyPresent = true →
       env.urlEnv.contentLength = some s →
       (facadeInitialize env ⟨.url u, none⟩).logs = [msg]
       ∧ (facadeInitialize env ⟨.url u, none⟩).state.sourceImpl
           = some (.streaming (jsParseInt s))
       ∧ (facadeInitialize env ⟨.url u, none⟩).result
           = runDelegateInit env.delegateInit (.streaming (jsParseInt s))) := by
  obtain ⟨⟨sr, fp⟩, ⟨uo, up, uf, ub, uc⟩, di⟩ := env
  refine ⟨?_, ?_⟩
  · intro n hsr hp
    obtain rfl : sr = .ok () := hsr
    obtain rfl : fp = .throwErr msg := hp
    refine ⟨?_, ?_, ?_⟩ <;> simp [facadeInitialize, tryCreateIndexedReader]
  · intro u s ho hp hf hb hc
    obtain rfl : uo = .ok () := ho
    obtain rfl : up = .throwErr msg := hp
    obtain rfl : uf = .ok () := hf
    obtain rfl : ub = true := hb
    obtain rfl : uc = some s := hc
    refine ⟨?_, ?_, ?_⟩ <;> simp [facadeInitialize, tryCreateIndexedReader]

/-- Concrete environment for the C3 witness: the probe throws a
corrupt-footer error, both fallback paths viable. -/
def envC3w : Env :=
  ⟨⟨.ok (), .throwErr "corrupt footer"⟩,
   ⟨.ok (), .throwErr "corrupt footer", .ok (), true, some "100"⟩,
   fun _ => .ok ⟨[3], [], 1, 2⟩⟩

/-- Witness for C3: the thrown construction error is logged, the
streaming delegate is installed, and the returned result is the
streaming delegate's successful initialization. -/
theorem C3_construction_error_soft_fallback_witness :
    (facadeInitialize envC3w ⟨.file 11, none⟩).logs = ["corrupt footer"]
  ∧ (facadeInitialize envC3w ⟨.file 11, none⟩).state.sourceImpl
      = some (.streaming (some (Int.ofNat 11)))
  ∧ (facadeInitialize envC3w ⟨.file 11, none⟩).result
      = runDelegateInit envC3w.delegateInit (.streaming (some (Int.ofNat 11)))
  ∧ (facadeInitialize envC3w ⟨.url "http://x/d.mcap", none⟩).logs = ["corrupt footer"] :=
  ⟨((C3_construction_error_soft_fallback envC3w "corrupt footer").1 11 rfl rfl).1,
   ((C3_construction_error_soft_fallback envC3w "corrupt footer").1 11 rfl rfl).2.1,
   ((C3_construction_error_soft_fallback envC3w "corrupt footer").1 11 rfl rfl).2.2,
   ((C3_construction_error_soft_fallback envC3w "corrupt footer").2
      "http://x/d.mcap" "100" rfl rfl rfl rfl rfl).1⟩

/-- C5: the indexed delegate's `messageIterator` yields records in
non-decreasing log-time order, and when a topic allow-list is provided,
every yielded record's channel resolves to a topic in that list. -/
theorem C5_indexed_iterator_sorted_and_filtered (f : IndexedMcapFile)
    (args : MessageIteratorArgs) :
    List.Sorted msgLE (indexedMessageIterator f args)
  ∧ (∀ m ∈ indexedMessageIterator f args, ∀ ts : List String,
      args.topics = some ts →
      ∃ t, topicOfChannel f m.channelId = some t ∧ ts.contains t = true) := by
  constructor
  · exact List.sorted_insertionSort msgLE _
  · intro m hm ts hts
    simp only [indexedMessageIterator, List.mem_insertionSort, List.mem_filter] at hm
    obtain ⟨-, hpass⟩ := hm
    simp only [messagePasses, hts, Bool.and_eq_true] at hpass
    obtain ⟨-, hmatch⟩ := hpass
    cases h3 : topicOfChannel f m.channelId with
    | none => rw [h3] at hmatch; cases hmatch
    | some t =>
      rw [h3] at hmatch
      exact ⟨t, rfl, hmatch⟩

/-- Concrete indexed file for the C5 witness: two channels, two chunks,
messages out of chunk order overall. -/
def fileC5w : IndexedMcapFile :=
  ⟨[⟨1, "a"⟩, ⟨2, "b"⟩],
   [⟨0, 10, [⟨1, 5, 5, []⟩, ⟨2, 6, 6, []⟩]⟩, ⟨8, 20, [⟨1, 9, 9, []⟩]⟩]⟩

/-- Concrete iterator arguments for the C5 witness: topic filter on
`"a"`, unbounded time range. -/
def argsC5w : MessageIteratorArgs := ⟨some ["a"], none, none⟩

/-- Witness for C5 at a concrete file, arguments, and yielded record. -/
theorem C5_indexed_iterator_sorted_and_filtered_witness :
    (⟨1, 5, 5, []⟩ : McapMessage) ∈ indexedMessageIterator fileC5w argsC5w
  ∧ argsC5w.topics = some ["a"]
  ∧ List.Sorted msgLE (indexedMessageIterator fileC5w argsC5w)
  ∧ ∃ t, topicOfChannel fileC5w 1 = some t ∧ List.contains ["a"] t = true :=
  ⟨by decide, rfl,
   (C5_indexed_iterator_sorted_and_filtered fileC5w argsC5w).1,
   (C5_indexed_iterator_sorted_and_filtered fileC5w argsC5w).2
     ⟨1, 5, 5, []⟩ (by decide) ["a"] rfl⟩

/-- A facade state on which every iterator and backfill call throws the
uninitialized invariant violation. -/
def uninitCalls (st : McapIterableSource) : Prop :=
  (∀ (fI : SourceImpl → MessageIteratorArgs → List McapMessage)
     (opt : MessageIteratorArgs),
     facadeMessageIterator fI st opt = .error "Invariant: uninitialized")
  ∧ (∀ (fB : SourceImpl → GetBackfillMessagesArgs → List McapMessage)
     (args : GetBackfillMessagesArgs),
     facadeGetBackfillMessages fB st args = .error "Invariant: uninitialized")

/-- A state with no delegate rejects every call. -/
theorem uninitCalls_of_none (st : McapIterableSource) (h : st.sourceImpl = none) :
    uninitCalls st :=
  ⟨fun fI opt => by simp [facadeMessageIterator, h],
   fun fB args => by simp [facadeGetBackfillMessages, h]⟩

/-- Environment for the C6 counterexample: the probe yields a usable
indexed reader but the chosen delegate's own `initialize` throws. -/
def envC6ce : Env :=
  ⟨⟨.ok (), .ok 1 1⟩, ⟨.ok (), .ok 1 1, .ok (), true, some "5"⟩,
   fun _ => .error "delegate failed"⟩

/-- Counterexample to C6 as stated: when the delegate's own
initialization fails, `initialize()` fails — yet the delegate is already
set, and a subsequent `messageIterator`/`getBackfillMessages` call does
NOT fail as uninitialized: it delegates. -/
theorem C6_counterexample_delegate_init_failure :
    (facadeInitialize envC6ce ⟨.file 5, none⟩).result
        = .error (.delegateInitErr "delegate failed")
  ∧ (facadeInitialize envC6ce ⟨.file 5, none⟩).state.sourceImpl
        = some (.indexed ⟨1, 1⟩)
  ∧ facadeMessageIterator (fun _ _ => [])
        (facadeInitialize envC6ce ⟨.file 5, none⟩).state ⟨none, none, none⟩
      = .ok []
  ∧ facadeGetBackfillMessages (fun _ _ => [])
        (facadeInitialize envC6ce ⟨.file 5, none⟩).state ⟨[], 0⟩
      = .ok [] :=
  ⟨rfl, rfl, rfl, rfl⟩

/-- C6 (amended): every `initialize()` failure that occurs before a
delegate is constructed — preliminary-read failure, unreachable URL at
`open`, fetch failure, missing stream body, missing Content-Length —
leaves the delegate unset, and every subsequent call still fails as
uninitialized.  (A failure of the chosen delegate's own initialization,
by contrast, happens after the delegate slot is assigned, so the
delegate does not remain unset in that case.) -/
theorem C6_amended_no_partial_state_before_delegate (env : Env) :
    (∀ (n : Nat) (e : ReadErr), env.fileEnv.sliceRead = .error e →
       (facadeInitialize env ⟨.file n, none⟩).state.sourceImpl = none
       ∧ uninitCalls (facadeInitialize env ⟨.file n, none⟩).state)
  ∧ (∀ u m, env.urlEnv.openResult = .error m →
       (facadeInitialize env ⟨.url u, none⟩).state.sourceImpl = none
       ∧ uninitCalls (facadeInitialize env ⟨.url u, none⟩).state)
  ∧ (∀ u m, env.urlEnv.openResult = .ok () →
       (tryCreateIndexedReader env.urlEnv.probe).1 = none →
       env.urlEnv.fetchResult = .error m →
       (facadeInitialize env ⟨.url u, none⟩).state.sourceImpl = none
       ∧ uninitCalls (facadeInitialize env ⟨.url u, none⟩).state)
  ∧ (∀ u, env.urlEnv.openResult = .ok () →
       (tryCreateIndexedReader env.urlEnv.probe).1 = none →
       env.urlEnv.fetchResult = .ok () →
       env.urlEnv.bodyPresent = false →
       (facadeInitialize env ⟨.url u, none⟩).state.sourceImpl = none
       ∧ uninitCalls (facadeInitialize env ⟨.url u, none⟩).state)
  ∧ (∀ u, env.urlEnv.openResult = .ok () →
       (tryCreateIndexedReader env.urlEnv.probe).1 = none →
       env.urlEnv.fetchResult = .ok () →
       env.urlEnv.bodyPresent = true →
       env.urlEnv.contentLength = none →
       (facadeInitialize env ⟨.url u, none⟩).state.sourceImpl = none
       ∧ uninitCalls (facadeInitialize env ⟨.url u, none⟩).state) := by
  obtain ⟨⟨sr, fp⟩, ⟨uo, up, uf, ub, uc⟩, di⟩ := env
  refine ⟨?_, ?_, ?_, ?_, ?_⟩
  · intro n e hsr
    obtain rfl : sr = .error e := hsr
    have hstate : (facadeInitialize
        ⟨⟨.error e, fp⟩, ⟨uo, up, uf, ub, uc⟩, di⟩
        ⟨.file n, none⟩).state.sourceImpl = none := by
      simp [facadeInitialize]
    exact ⟨hstate, uninitCalls_of_none _ hstate⟩
  · intro u m ho
    obtain rfl : uo = .error m := ho
    have hstate : (facadeInitialize
        ⟨⟨sr, fp⟩, ⟨.error m, up, uf, ub, uc⟩, di⟩
        ⟨.url u, none⟩).state.sourceImpl = none := by
      simp [facadeInitialize]
    exact ⟨hstate, uninitCalls_of_none _ hstate⟩
  · intro u m ho hpr hf
    obtain rfl : uo = .ok () := ho
    obtain rfl : uf = .error m := hf
    have hstate : (facadeInitialize
        ⟨⟨sr, fp⟩, ⟨.ok (), up, .error m, ub, uc⟩, di⟩
        ⟨.url u, none⟩).state.sourceImpl = none := by
      simp [facadeInitialize, hpr]
    exact ⟨hstate, uninitCalls_of_none _ hstate⟩
  · intro u ho hpr hf hb
    obtain rfl : uo = .ok () := ho
    obtain rfl : uf = .ok () := hf
    obtain rfl : ub = false := hb
    have hstate : (facadeInitialize
        ⟨⟨sr, fp⟩, ⟨.ok (), up, .ok (), false, uc⟩, di⟩
        ⟨.url u, none⟩).state.sourceImpl = none := by
      simp [facadeInitialize, hpr]
    exact ⟨hstate, uninitCalls_of_none _ hstate⟩
  · intro u ho hpr hf hb hc
    obtain rfl : uo = .ok () := ho
    obtain rfl : uf = .ok () := hf
    obtain rfl : ub = true := hb
    obtain rfl : uc = none := hc
    have hstate : (facadeInitialize
        ⟨⟨sr, fp⟩, ⟨.ok (), up, .ok (), true, none⟩, di⟩
        ⟨.url u, none⟩).state.sourceImpl = none := by
      simp [facadeInitialize, hpr]
    exact ⟨hstate, uninitCalls_of_none _ hstate⟩

/-- Environment for the C6 witness: the preliminary file read fails with
a permission error, and the url path lacks a Content-Length header. -/
def envC6w : Env :=
  ⟨⟨.error .permissionDenied, .ok 0 0⟩,
   ⟨.ok (), .ok 0 0, .ok (), true, none⟩,
   fun _ => .ok ⟨[], [], 0, 0⟩⟩

/-- Witness for the amended C6 at concrete pre-delegate failures. -/
theorem C6_amended_no_partial_state_before_delegate_witness :
    ((facadeInitialize envC6w ⟨.file 2, none⟩).state.sourceImpl = none
      ∧ uninitCalls (facadeInitialize envC6w ⟨.file 2, none⟩).state)
  ∧ ((facadeInitialize envC6w ⟨.url "http://y/e.mcap", none⟩).state.sourceImpl = none
      ∧ uninitCalls (facadeInitialize envC6w ⟨.url "http://y/e.mcap", none⟩).state) :=
  ⟨(C6_amended_no_partial_state_before_delegate envC6w).1 2 .permissionDenied rfl,
   (C6_amended_no_partial_state_before_delegate envC6w).2.2.2.2
     "http://y/e.mcap" rfl (by decide) rfl rfl rfl⟩

/-- C7: once `initialize()` has chosen a delegate on a fresh instance,
the facade is a thin pass-through: `messageIterator` and
`getBackfillMessages` return exactly the delegate's results for the same
arguments, and the value `initialize()` returned is exactly the chosen
delegate's own initialization result. -/
theorem C7_thin_pass_through (env : Env) (st : McapIterableSource)
    (impl : SourceImpl) (h0 : st.sourceImpl = none)
    (h : (facadeInitialize env st).state.sourceImpl = some impl)
    (fI : SourceImpl → MessageIteratorArgs → List McapMessage)
    (fB : SourceImpl → GetBackfillMessagesArgs → List McapMessage)
    (opt : MessageIteratorArgs) (args : GetBackfillMessagesArgs) :
    facadeMessageIterator fI (facadeInitialize env st).state opt
      = .ok (fI impl opt)
  ∧ facadeGetBackfillMessages fB (facadeInitialize env st).state args
      = .ok (fB impl args)
  ∧ (facadeInitialize env st).result = runDelegateInit env.delegateInit impl := by
  have h3 : (facadeInitialize env st).result
      = runDelegateInit env.delegateInit impl := by
    obtain ⟨⟨sr, fp⟩, ⟨uo, up, uf, ub, uc⟩, di⟩ := env
    obtain ⟨src, i0⟩ := st
    obtain rfl : i0 = none := h0
    cases src with
    | file n =>
      cases sr with
      | error e => simp [facadeInitialize] at h
      | ok v =>
        cases v
        rcases hpr : (tryCreateIndexedReader fp).1 with _ | r <;>
          simp [facadeInitialize, hpr] at h ⊢ <;> rw [h]
    | url u =>
      cases uo with
      | error m => simp [facadeInitialize] at h
      | ok v =>
        cases v
        rcases hpr : (tryCreateIndexedReader up).1 with _ | r
        · cases uf with
          | error m => simp [facadeInitialize, hpr] at h
          | ok v2 =>
            cases v2
            cases ub with
            | false => simp [facadeInitialize, hpr] at h
            | true =>
              cases uc with
              | none => simp [facadeInitialize, hpr] at h
              | some s =>
                simp [facadeInitialize, hpr] at h ⊢
                rw [h]
        · simp [facadeInitialize, hpr] at h ⊢
          rw [h]
  exact ⟨by simp [facadeMessageIterator, h],
         by simp [facadeGetBackfillMessages, h], h3⟩

/-- Environment for the C7 witness: usable indexed reader, delegate
initialization succeeds. -/
def envC7w : Env :=
  ⟨⟨.ok (), .ok 2 3⟩, ⟨.ok (), .ok 2 3, .ok (), true, some "8"⟩,
   fun _ => .ok ⟨[1], [1], 0, 9⟩⟩

/-- Witness for C7 at a concrete file source on the indexed path. -/
theorem C7_thin_pass_through_witness :
    facadeMessageIterator (fun _ _ => [⟨1, 6, 0, []⟩])
        (facadeInitialize envC7w ⟨.file 4, none⟩).state ⟨none, some 6, none⟩
      = .ok [⟨1, 6, 0, []⟩]
  ∧ facadeGetBackfillMessages (fun _ a => [⟨2, a.time, 0, []⟩])
        (facadeInitialize envC7w ⟨.file 4, none⟩).state ⟨["a"], 3⟩
      = .ok [⟨2, 3, 0, []⟩]
  ∧ (facadeInitialize envC7w ⟨.file 4, none⟩).result
      = runDelegateInit envC7w.delegateInit (.indexed ⟨2, 3⟩) :=
  C7_thin_pass_through envC7w ⟨.file 4, none⟩ (.indexed ⟨2, 3⟩) rfl rfl
    (fun _ _ => [⟨1, 6, 0, []⟩]) (fun _ a => [⟨2, a.time, 0, []⟩])
    ⟨none, some 6, none⟩ ⟨["a"], 3⟩

/-- State threading through `runOps` never changes the facade state:
neither method assigns `_sourceImpl`. -/
theorem runOps_state_eq
    (fI : SourceImpl → MessageIteratorArgs → List McapMessage)
    (fB : SourceImpl → GetBackfillMessagesArgs → List McapMessage)
    (st : McapIterableSource) (ops : List FacadeOp) :
    (runOps fI fB st ops).1 = st := by
  induction ops with
  | nil => rfl
  | cons op rest ih => simp [runOps, ih]

/-- With a delegate set, every op in a run dispatches to that same
delegate. -/
theorem runOps_results
    (fI : SourceImpl → MessageIteratorArgs → List McapMessage)
    (fB : SourceImpl → GetBackfillMessagesArgs → List McapMessage)
    (st : McapIterableSource) (impl : SourceImpl)
    (h : st.sourceImpl = some impl) (ops : List FacadeOp) :
    (runOps fI fB st ops).2 = ops.map (fun op =>
      Except.ok (match op with
        | .msgIter a => fI impl a
        | .backfill a => fB impl a)) := by
  induction ops with
  | nil => rfl
  | cons op rest ih =>
    cases op <;>
      simp [runOps, facadeMessageIterator, facadeGetBackfillMessages, h, ih]

/-- C8: the delegate chosen when `initialize()` ran is never reconsidered
or replaced afterward: across any sequence of subsequent
`messageIterator`/`getBackfillMessages` calls, the delegate slot still
holds the same delegate, and every call in the sequence dispatched to
exactly that delegate. -/
theorem C8_delegate_never_replaced (env : Env) (st : McapIterableSource)
    (impl : SourceImpl)
    (h : (facadeInitialize env st).state.sourceImpl = some impl)
    (fI : SourceImpl → MessageIteratorArgs → List McapMessage)
    (fB : SourceImpl → GetBackfillMessagesArgs → List McapMessage)
    (ops : List FacadeOp) :
    (runOps fI fB (facadeInitialize env st).state ops).1.sourceImpl = some impl
  ∧ (runOps fI fB (facadeInitialize env st).state ops).2 = ops.map (fun op =>
      Except.ok (match op with
        | .msgIter a => fI impl a
        | .backfill a => fB impl a)) := by
  refine ⟨?_, runOps_results fI fB _ impl h ops⟩
  rw [runOps_state_eq]
  exact h

/-- Environment for the C8 witness: usable indexed reader. -/
def envC8w : Env :=
  ⟨⟨.ok (), .ok 4 2⟩, ⟨.ok (), .ok 4 2, .ok (), true, some "8"⟩,
   fun _ => .ok ⟨[1, 2], [1], 0, 9⟩⟩

/-- Witness for C8 over a concrete two-call sequence. -/
theorem C8_delegate_never_replaced_witness :
    (runOps (fun _ _ => []) (fun _ _ => [])
        (facadeInitialize envC8w ⟨.file 6, none⟩).state
        [.msgIter ⟨none, none, none⟩, .backfill ⟨["a"], 3⟩]).1.sourceImpl
      = some (.indexed ⟨4, 2⟩)
  ∧ (runOps (fun _ _ => []) (fun _ _ => [])
        (facadeInitialize envC8w ⟨.file 6, none⟩).state
        [.msgIter ⟨none, none, none⟩, .backfill ⟨["a"], 3⟩]).2
      = [FacadeOp.msgIter ⟨none, none, none⟩, FacadeOp.backfill ⟨["a"], 3⟩].map (fun op =>
          Except.ok (match op with
            | .msgIter a => (fun _ _ => ([] : List McapMessage)) (SourceImpl.indexed ⟨4, 2⟩) a
            | .backfill a => (fun _ _ => ([] : List McapMessage)) (SourceImpl.indexed ⟨4, 2⟩) a)) :=
  C8_delegate_never_replaced envC8w ⟨.file 6, none⟩ (.indexed ⟨4, 2⟩) rfl
    (fun _ _ => []) (fun _ _ => [])
    [.msgIter ⟨none, none, none⟩, .backfill ⟨["a"], 3⟩]

